import Mathlib

set_option maxRecDepth 8000

/-!
Shallow embedding of the pipeline service in `src/main.py` (the `multi-pipe`
repository).  External effects — the two upstream HTTP fetches, the database
write and the notification — are modelled by an environment `Env` of oracles
returning `Except String α` (an exception carries its message string, Python's
`str(e)`).  Timestamps are modelled by a single clock reading `Env.now`
supplied by the environment (every `datetime.utcnow()` call during one request
reads it).  `run_pipeline` additionally returns the list of persisted rows and
the trace of external calls attempted, so that claims about "no persistence is
attempted" or "notification runs exactly once" are statable.
-/

/-- JSON object returned by the item-detail endpoint: the two fields
`run_pipeline` reads, each possibly absent (`story_data.get`). -/
structure StoryData where
  title : Option String
  text : Option String
deriving Repr, DecidableEq

/-- One element of the response's `items` array (built at
`results.append` in `run_pipeline`). -/
structure ItemResult where
  original : String
  analysis : String
  sentiment : String
  stored : Bool
  timestamp : Nat
deriving Repr, DecidableEq

/-- One persisted row of the `stories` table (the `Story` object built in
`save_to_db`; the autoincrement primary key is omitted). -/
structure StoredRecord where
  title : String
  content : String
  analysis : String
  sentiment : String
  source : String
  timestamp : Nat
deriving Repr, DecidableEq

/-- The JSON body returned by the `/pipeline` endpoint. -/
structure PipelineReport where
  items : List ItemResult
  notificationSent : Bool
  processedAt : Nat
  errors : List String
deriving Repr, DecidableEq

/-- An attempted external call: the batch fetch, a detail fetch,
a database write, a notification. -/
inductive Call where
  | fetchTop : Call
  | fetchStory : Nat → Call
  | save : StoredRecord → Call
  | notify : String → Call
deriving Repr, DecidableEq

/-- Environment of one request: outcome of each external call the code can
make, plus the clock reading.  `.error e` models the call raising an
exception whose `str(e)` is `e`. -/
structure Env where
  topIds : Except String (List Nat)
  fetchStory : Nat → Except String StoryData
  save : StoredRecord → Except String Unit
  notify : String → Except String Bool
  now : Nat

/-- Substring search over character lists: does `needle` start at some
position of the second list? -/
def isSubList (needle : List Char) : List Char → Bool
  | [] => needle.isEmpty
  | b :: ys => needle.isPrefixOf (b :: ys) || isSubList needle ys

/-- Python's `needle in hay` on strings: substring containment. -/
def containsSub (hay needle : String) : Bool :=
  isSubList needle.data hay.data

/-- The `positive_words` lexicon of `analyze_text`. -/
def positive_words : List String :=
  ["good", "great", "excellent", "success",
   "win", "growth", "amazing", "breakthrough",
   "innovation", "record"]

/-- The `negative_words` lexicon of `analyze_text`. -/
def negative_words : List String :=
  ["bad", "poor", "fail", "loss",
   "decline", "problem", "issue",
   "crash", "drop", "risk"]

/-- Python's `text.lower()`: character-wise lowercasing. -/
def pyLower (s : String) : String :=
  String.mk (s.data.map Char.toLower)

/-- `sum(word in text_lower for word in positive_words)`: how many lexicon
words occur (as substrings) in the lowercased text. -/
def positive_score (text : String) : Nat :=
  (positive_words.filter (fun w => containsSub (pyLower text) w)).length

/-- `sum(word in text_lower for word in negative_words)`. -/
def negative_score (text : String) : Nat :=
  (negative_words.filter (fun w => containsSub (pyLower text) w)).length

/-- Python's `text[:200]`: the first 200 characters (code points). -/
def pyTake (s : String) (n : Nat) : String :=
  String.mk (s.data.take n)

/-- `analyze_text` from `src/main.py`: returns `(summary, sentiment)`.
`if not text` on a Python `str` is the emptiness test. -/
def analyze_text (text : String) : String × String :=
  if text = "" then
    ("No content available.", "objective")
  else
    let sentiment :=
      if positive_score text > negative_score text then "enthusiastic"
      else if negative_score text > positive_score text then "critical"
      else "objective"
    (pyTake text 200, sentiment)

/-- `title = story_data.get("title", "")`. -/
def titleOf (sd : StoryData) : String :=
  sd.title.getD ""

/-- `content = story_data.get("text", "") or title`: Python's `or` falls back
to the title when the text field is absent or empty. -/
def contentOf (sd : StoryData) : String :=
  let t := sd.text.getD ""
  if t = "" then titleOf sd else t

/-- The row `save_to_db` is asked to persist for a fetched story
(`save_to_db(title, content, analysis, sentiment, request.source)` plus the
row's own `utcnow` timestamp). -/
def rowOf (env : Env) (source : String) (sd : StoryData) : StoredRecord :=
  { title := titleOf sd
    content := contentOf sd
    analysis := (analyze_text (contentOf sd)).1
    sentiment := (analyze_text (contentOf sd)).2
    source := source
    timestamp := env.now }

/-- `f"Story {story_id} failed: {str(e)}"`. -/
def itemError (sid : Nat) (cause : String) : String :=
  "Story " ++ toString sid ++ " failed: " ++ cause

/-- Mutable loop state of `run_pipeline`'s per-item loop (`results`,
`errors`), plus the persisted rows and the call trace. -/
structure LoopState where
  results : List ItemResult
  errors : List String
  stored : List StoredRecord
  calls : List Call
deriving Repr, DecidableEq

/-- The element `results.append(...)` adds for a successfully processed
story: original title, derived summary and sentiment, `stored=True`, a
clock reading. -/
def resultOf (env : Env) (sd : StoryData) : ItemResult :=
  { original := titleOf sd
    analysis := (analyze_text (contentOf sd)).1
    sentiment := (analyze_text (contentOf sd)).2
    stored := true
    timestamp := env.now }

/-- One iteration of the `for story_id in ids` loop: the `try` block fetches
the story, derives title/content, classifies, persists, appends the item
result; any exception is caught, appended to `errors`, and the loop
continues. -/
def stepItem (env : Env) (source : String) (st : LoopState) (sid : Nat) :
    LoopState :=
  match env.fetchStory sid with
  | .error e =>
    { st with
      errors := st.errors ++ [itemError sid e]
      calls := st.calls ++ [.fetchStory sid] }
  | .ok sd =>
    let row := rowOf env source sd
    match env.save row with
    | .error e =>
      { st with
        errors := st.errors ++ [itemError sid e]
        calls := st.calls ++ [.fetchStory sid, .save row] }
    | .ok _ =>
      { results := st.results ++ [resultOf env sd]
        errors := st.errors
        stored := st.stored ++ [row]
        calls := st.calls ++ [.fetchStory sid, .save row] }

/-- Result of one request: the JSON report, the rows persisted during the
run, and the trace of attempted external calls. -/
structure RunOutcome where
  report : PipelineReport
  stored : List StoredRecord
  calls : List Call
deriving Repr, DecidableEq

/-- `run_pipeline` from `src/main.py`.  A `fetch_top_ids` exception
short-circuits with the single batch error; otherwise the first three ids are
processed in order, then `send_notification` runs inside its own
try/except. -/
def run_pipeline (env : Env) (email source : String) : RunOutcome :=
  match env.topIds with
  | .error e =>
    { report :=
        { items := []
          notificationSent := false
          processedAt := env.now
          errors := ["Failed fetching top stories: " ++ e] }
      stored := []
      calls := [.fetchTop] }
  | .ok allIds =>
    let ids := allIds.take 3
    let st := ids.foldl (stepItem env source)
      { results := [], errors := [], stored := [], calls := [.fetchTop] }
    match env.notify email with
    | .ok b =>
      { report :=
          { items := st.results
            notificationSent := b
            processedAt := env.now
            errors := st.errors }
        stored := st.stored
        calls := st.calls ++ [.notify email] }
    | .error e =>
      { report :=
          { items := st.results
            notificationSent := false
            processedAt := env.now
            errors := st.errors ++ ["Notification failed: " ++ e] }
        stored := st.stored
        calls := st.calls ++ [.notify email] }

/-!  Characterizations of one loop iteration, per story id, used to state
the claims: its outcome, its raw failure cause, and the calls it attempts. -/

/-- What the loop body does with one id: either both the fetch and the save
succeed, yielding the appended item result and the persisted row, or the
first exception's message (already formatted as the recorded error). -/
def itemOutcome (env : Env) (source : String) (sid : Nat) :
    Except String (ItemResult × StoredRecord) :=
  match env.fetchStory sid with
  | .error e => .error (itemError sid e)
  | .ok sd =>
    let row := rowOf env source sd
    match env.save row with
    | .error e => .error (itemError sid e)
    | .ok _ => .ok (resultOf env sd, row)

/-- The item result a given id contributes to `items`, when it succeeds. -/
def successItem (env : Env) (source : String) (sid : Nat) : Option ItemResult :=
  (itemOutcome env source sid).toOption.map Prod.fst

/-- The row a given id persists, when it succeeds. -/
def successRow (env : Env) (source : String) (sid : Nat) : Option StoredRecord :=
  (itemOutcome env source sid).toOption.map Prod.snd

/-- The error string a given id contributes to `errors`, when it fails. -/
def failureMsg (env : Env) (source : String) (sid : Nat) : Option String :=
  match itemOutcome env source sid with
  | .error e => some e
  | .ok _ => none

/-- The raw exception message (Python's `str(e)`) behind a failed id. -/
def failCause (env : Env) (source : String) (sid : Nat) : Option String :=
  match env.fetchStory sid with
  | .error e => some e
  | .ok sd =>
    match env.save (rowOf env source sd) with
    | .error e => some e
    | .ok _ => none

/-- The external calls one loop iteration attempts: the detail fetch, then —
only if the fetch succeeded — the database write. -/
def itemCalls (env : Env) (source : String) (sid : Nat) : List Call :=
  match env.fetchStory sid with
  | .error _ => [.fetchStory sid]
  | .ok sd => [.fetchStory sid, .save (rowOf env source sd)]

/-- The calls of the whole per-item loop, in id order. -/
def callsOf (env : Env) (source : String) : List Nat → List Call
  | [] => []
  | sid :: rest => itemCalls env source sid ++ callsOf env source rest

/-- The `notificationSent` value of the response when the notification step
runs: `send_notification`'s return value, or `False` if it raised. -/
def notifSentOf (env : Env) (email : String) : Bool :=
  match env.notify email with
  | .ok b => b
  | .error _ => false

/-- The error strings the notification step appends: none on success, one
`"Notification failed: ..."` entry if it raised. -/
def notifErrsOf (env : Env) (email : String) : List String :=
  match env.notify email with
  | .ok _ => []
  | .error e => ["Notification failed: " ++ e]

/-- Recognizes detail-fetch calls in a trace. -/
def isStoryFetch : Call → Bool
  | .fetchStory _ => true
  | _ => false

/-- Recognizes database-write calls in a trace. -/
def isSave : Call → Bool
  | .save _ => true
  | _ => false

/-- Recognizes notification calls in a trace. -/
def isNotify : Call → Bool
  | .notify _ => true
  | _ => false

/-- Unfolding the per-item loop: starting from any accumulated state, the
loop appends exactly the successful items, the per-item error strings, the
successfully persisted rows, and the attempted calls, each in id order. -/
theorem foldl_stepItem (env : Env) (source : String) (ids : List Nat) :
    ∀ st : LoopState, ids.foldl (stepItem env source) st =
      { results := st.results ++ ids.filterMap (successItem env source)
        errors := st.errors ++ ids.filterMap (failureMsg env source)
        stored := st.stored ++ ids.filterMap (successRow env source)
        calls := st.calls ++ callsOf env source ids } := by
  induction ids with
  | nil => intro st; simp [callsOf]
  | cons sid rest ih =>
    intro st
    rw [List.foldl_cons, ih]
    cases hf : env.fetchStory sid with
    | error e =>
      simp [stepItem, successItem, successRow, failureMsg, itemOutcome,
        Except.toOption, callsOf, itemCalls, hf, List.append_assoc]
    | ok sd =>
      cases hs : env.save (rowOf env source sd) with
      | error e =>
        simp [stepItem, successItem, successRow, failureMsg, itemOutcome,
          Except.toOption, callsOf, itemCalls, hf, hs, List.append_assoc]
      | ok u =>
        simp [stepItem, successItem, successRow, failureMsg, itemOutcome,
          Except.toOption, callsOf, itemCalls, hf, hs, List.append_assoc]

/-! Helper lemmas about the embedding. -/

theorem strData_append (s t : String) : (s ++ t).data = s.data ++ t.data := by
  cases s; cases t; rfl

theorem strMk_data (s : String) : String.mk s.data = s := by
  cases s; rfl

/-- Every list is a prefix of itself, in the boolean sense. -/
theorem isPrefixOf_self (l : List Char) : l.isPrefixOf l = true := by
  induction l with
  | nil => rfl
  | cons a rest ih => simp [List.isPrefixOf, ih]

/-- Every list occurs in itself as a sublist. -/
theorem isSubList_self (l : List Char) : isSubList l l = true := by
  cases l with
  | nil => rfl
  | cons b ys => simp [isSubList, isPrefixOf_self]

/-- A sublist occurrence survives prepending to the haystack. -/
theorem isSubList_append (l₂ : List Char) :
    ∀ l₁ : List Char, isSubList l₂ (l₁ ++ l₂) = true := by
  intro l₁
  induction l₁ with
  | nil => simpa using isSubList_self l₂
  | cons a rest ih => simp [isSubList, ih]

/-- A string always contains, as a substring, the suffix of any
concatenation ending in it. -/
theorem containsSub_append_right (x e : String) :
    containsSub (x ++ e) e = true := by
  unfold containsSub
  rw [strData_append]
  exact isSubList_append e.data x.data

/-- The recorded per-item error is the raw cause wrapped in the
`"Story <id> failed: ..."` format. -/
theorem failureMsg_eq_failCause (env : Env) (source : String) (sid : Nat) :
    failureMsg env source sid = (failCause env source sid).map (itemError sid) := by
  unfold failureMsg failCause itemOutcome
  cases env.fetchStory sid with
  | error e => rfl
  | ok sd =>
    dsimp only
    cases env.save (rowOf env source sd) <;> rfl

/-- An id that records a failure contributes no item result. -/
theorem successItem_of_failureMsg (env : Env) (source : String) (sid : Nat)
    (m : String) (hm : failureMsg env source sid = some m) :
    successItem env source sid = none := by
  unfold failureMsg at hm
  unfold successItem
  cases h : itemOutcome env source sid with
  | error e => simp [Except.toOption]
  | ok v => rw [h] at hm; exact absurd hm (by simp)

/-- An id that records a failure persists no row. -/
theorem successRow_of_failureMsg (env : Env) (source : String) (sid : Nat)
    (m : String) (hm : failureMsg env source sid = some m) :
    successRow env source sid = none := by
  unfold failureMsg at hm
  unfold successRow
  cases h : itemOutcome env source sid with
  | error e => simp [Except.toOption]
  | ok v => rw [h] at hm; exact absurd hm (by simp)

/-- The loop attempts one detail fetch per id, in id order. -/
theorem callsOf_filter_storyFetch (env : Env) (source : String) :
    ∀ ids : List Nat,
      (callsOf env source ids).filter isStoryFetch = ids.map Call.fetchStory
  | [] => rfl
  | sid :: rest => by
    have ih := callsOf_filter_storyFetch env source rest
    cases hf : env.fetchStory sid <;>
      simp [callsOf, itemCalls, hf, isStoryFetch, ih]

/-- The loop attempts at most one database write per id. -/
theorem callsOf_filter_save_length (env : Env) (source : String) :
    ∀ ids : List Nat,
      ((callsOf env source ids).filter isSave).length ≤ ids.length
  | [] => Nat.le_refl 0
  | sid :: rest => by
    have ih := callsOf_filter_save_length env source rest
    cases hf : env.fetchStory sid <;>
      simp [callsOf, itemCalls, hf, isSave] <;> omega

/-- The per-item loop never attempts a notification. -/
theorem callsOf_filter_notify (env : Env) (source : String) :
    ∀ ids : List Nat, (callsOf env source ids).filter isNotify = []
  | [] => rfl
  | sid :: rest => by
    have ih := callsOf_filter_notify env source rest
    cases hf : env.fetchStory sid <;>
      simp [callsOf, itemCalls, hf, isNotify, ih]

/-! Concrete environments used to witness the theorems below. -/

/-- A story detail with both fields present. -/
def storyFull : StoryData :=
  { title := some "Good title", text := some "great growth, no problem" }

/-- A story detail whose `text` field is absent. -/
def storyNoText : StoryData :=
  { title := some "Breakthrough win", text := none }

/-- Everything succeeds except the detail fetch of id 20. -/
def envOk : Env :=
  { topIds := .ok [10, 20, 30, 40]
    fetchStory := fun sid => if sid = 20 then .error "timeout" else .ok storyFull
    save := fun _ => .ok ()
    notify := fun _ => .ok true
    now := 7 }

/-- The batch fetch of top ids raises. -/
def envBatchFail : Env :=
  { envOk with topIds := .error "boom" }

/-- Every detail fetch raises and the notification raises too. -/
def envNotifyFail : Env :=
  { envOk with
    fetchStory := fun _ => .error "conn reset"
    notify := fun _ => .error "smtp down" }

/-- Every detail fetch returns the story with no `text` field. -/
def envFallback : Env :=
  { envOk with fetchStory := fun _ => .ok storyNoText }

/-- Closed form of `run_pipeline` when the batch fetch succeeds. -/
theorem run_pipeline_ok (env : Env) (email source : String) (ids : List Nat)
    (h : env.topIds = .ok ids) :
    run_pipeline env email source =
      { report :=
          { items := (ids.take 3).filterMap (successItem env source)
            notificationSent := notifSentOf env email
            processedAt := env.now
            errors := (ids.take 3).filterMap (failureMsg env source)
              ++ notifErrsOf env email }
        stored := (ids.take 3).filterMap (successRow env source)
        calls := [Call.fetchTop] ++ callsOf env source (ids.take 3)
          ++ [Call.notify email] } := by
  unfold run_pipeline
  rw [h]
  dsimp only
  rw [foldl_stepItem]
  cases hn : env.notify email <;>
    simp [notifSentOf, notifErrsOf, hn]

/-- Closed form of `run_pipeline` when the batch fetch raises. -/
theorem run_pipeline_err (env : Env) (email source e : String)
    (h : env.topIds = .error e) :
    run_pipeline env email source =
      { report :=
          { items := []
            notificationSent := false
            processedAt := env.now
            errors := ["Failed fetching top stories: " ++ e] }
        stored := []
        calls := [Call.fetchTop] } := by
  unfold run_pipeline
  rw [h]

/-- C1: if the upstream top-items fetch raises, `run_pipeline` returns
immediately with empty `items`, `notificationSent = false`, and exactly one
error entry containing the failure cause; nothing is persisted and no detail
fetch, save or notification is attempted (the call trace is the batch fetch
alone). -/
theorem batch_fetch_failure_total (env : Env) (email source e : String)
    (h : env.topIds = .error e) :
    (run_pipeline env email source).report.items = [] ∧
    (run_pipeline env email source).report.notificationSent = false ∧
    (run_pipeline env email source).report.errors
      = ["Failed fetching top stories: " ++ e] ∧
    containsSub ("Failed fetching top stories: " ++ e) e = true ∧
    (run_pipeline env email source).stored = [] ∧
    (run_pipeline env email source).calls = [Call.fetchTop] := by
  rw [run_pipeline_err env email source e h]
  exact ⟨rfl, rfl, rfl, containsSub_append_right _ e, rfl, rfl⟩

/-- Witness for C1 at a concrete failing environment. -/
theorem batch_fetch_failure_total_witness :
    (run_pipeline envBatchFail "a@b.c" "hn").report.items = [] ∧
    (run_pipeline envBatchFail "a@b.c" "hn").report.notificationSent = false ∧
    (run_pipeline envBatchFail "a@b.c" "hn").report.errors
      = ["Failed fetching top stories: " ++ "boom"] ∧
    containsSub ("Failed fetching top stories: " ++ "boom") "boom" = true ∧
    (run_pipeline envBatchFail "a@b.c" "hn").stored = [] ∧
    (run_pipeline envBatchFail "a@b.c" "hn").calls = [Call.fetchTop] :=
  batch_fetch_failure_total envBatchFail "a@b.c" "hn" "boom" rfl

/-- C2: when the batch fetch succeeds, the response's `items` are exactly the
successfully processed stories in fetch order; the per-item error segment has
one entry per failed id, each of the form `"Story <id> failed: <cause>"`; a
failed id contributes no item, and the loop is never aborted (every one of
the first three ids gets its detail fetch attempted). -/
theorem per_item_isolation (env : Env) (email source : String) (ids : List Nat)
    (sid : Nat) (m : String)
    (h : env.topIds = .ok ids) (hm : failureMsg env source sid = some m) :
    (run_pipeline env email source).report.items
      = (ids.take 3).filterMap (successItem env source) ∧
    (run_pipeline env email source).report.errors
      = (ids.take 3).filterMap (failureMsg env source) ++ notifErrsOf env email ∧
    (ids.take 3).filterMap (failureMsg env source)
      = (ids.take 3).filterMap
          (fun i => (failCause env source i).map (itemError i)) ∧
    successItem env source sid = none ∧
    ((run_pipeline env email source).calls.filter isStoryFetch)
      = (ids.take 3).map Call.fetchStory := by
  rw [run_pipeline_ok env email source ids h]
  refine ⟨rfl, rfl, ?_, successItem_of_failureMsg env source sid m hm, ?_⟩
  · exact congrArg (fun g => List.filterMap g (ids.take 3))
      (funext fun i => failureMsg_eq_failCause env source i)
  · simp [List.filter_append, callsOf_filter_storyFetch, isStoryFetch]

/-- Witness for C2: in `envOk` the detail fetch of id 20 raises. -/
theorem per_item_isolation_witness :
    (run_pipeline envOk "a@b.c" "hn").report.items
      = (([10, 20, 30, 40] : List Nat).take 3).filterMap (successItem envOk "hn") ∧
    (run_pipeline envOk "a@b.c" "hn").report.errors
      = (([10, 20, 30, 40] : List Nat).take 3).filterMap (failureMsg envOk "hn")
        ++ notifErrsOf envOk "a@b.c" ∧
    (([10, 20, 30, 40] : List Nat).take 3).filterMap (failureMsg envOk "hn")
      = (([10, 20, 30, 40] : List Nat).take 3).filterMap
          (fun i => (failCause envOk "hn" i).map (itemError i)) ∧
    successItem envOk "hn" 20 = none ∧
    ((run_pipeline envOk "a@b.c" "hn").calls.filter isStoryFetch)
      = (([10, 20, 30, 40] : List Nat).take 3).map Call.fetchStory :=
  per_item_isolation envOk "a@b.c" "hn" [10, 20, 30, 40] 20
    "Story 20 failed: timeout" rfl rfl

/-- C3: when the batch fetch succeeds, the notification step runs exactly once
(the call trace holds exactly one notify call) regardless of how many items
succeeded, and the response reflects its outcome: `notificationSent` is its
boolean result on success, and on an exception it is `false` with a
notification error appended after the per-item errors. -/
theorem notification_unconditional (env : Env) (email source : String)
    (ids : List Nat) (h : env.topIds = .ok ids) :
    ((run_pipeline env email source).calls.filter isNotify)
      = [Call.notify email] ∧
    (run_pipeline env email source).report.notificationSent
      = notifSentOf env email ∧
    (run_pipeline env email source).report.errors
      = (ids.take 3).filterMap (failureMsg env source)
        ++ notifErrsOf env email := by
  rw [run_pipeline_ok env email source ids h]
  refine ⟨?_, rfl, rfl⟩
  simp [List.filter_append, callsOf_filter_notify, isNotify]

/-- Witness for C3: every item fails and the notification itself raises. -/
theorem notification_unconditional_witness :
    ((run_pipeline envNotifyFail "a@b.c" "hn").calls.filter isNotify)
      = [Call.notify "a@b.c"] ∧
    (run_pipeline envNotifyFail "a@b.c" "hn").report.notificationSent
      = notifSentOf envNotifyFail "a@b.c" ∧
    (run_pipeline envNotifyFail "a@b.c" "hn").report.errors
      = (([10, 20, 30, 40] : List Nat).take 3).filterMap
          (failureMsg envNotifyFail "hn")
        ++ notifErrsOf envNotifyFail "a@b.c" :=
  notification_unconditional envNotifyFail "a@b.c" "hn" [10, 20, 30, 40] rfl

/-- A success's persisted row and its appended item result carry the same
title, summary and sentiment. -/
theorem successRow_proj (env : Env) (source : String) (i : Nat) :
    (successRow env source i).map
        (fun row => (row.title, row.analysis, row.sentiment))
      = (successItem env source i).map
        (fun r => (r.original, r.analysis, r.sentiment)) := by
  unfold successRow successItem itemOutcome
  cases env.fetchStory i with
  | error e => rfl
  | ok sd =>
    dsimp only
    cases env.save (rowOf env source sd) <;> rfl

/-- C7: within one successful-batch run, the persisted rows are exactly the
rows of the successfully processed ids (a failed id persists nothing), and
they correspond one-to-one — same title, summary, sentiment, in the same
order — with the entries of the response's `items` array. -/
theorem no_partial_persistence (env : Env) (email source : String)
    (ids : List Nat) (sid : Nat) (m : String)
    (h : env.topIds = .ok ids) (hm : failureMsg env source sid = some m) :
    (run_pipeline env email source).stored
      = (ids.take 3).filterMap (successRow env source) ∧
    (run_pipeline env email source).stored.map
        (fun row => (row.title, row.analysis, row.sentiment))
      = (run_pipeline env email source).report.items.map
        (fun r => (r.original, r.analysis, r.sentiment)) ∧
    successRow env source sid = none := by
  rw [run_pipeline_ok env email source ids h]
  refine ⟨rfl, ?_, successRow_of_failureMsg env source sid m hm⟩
  dsimp only
  rw [List.map_filterMap, List.map_filterMap]
  exact congrArg (fun g => List.filterMap g (ids.take 3))
    (funext fun i => successRow_proj env source i)

/-- Witness for C7 at `envOk`, where id 20 fails. -/
theorem no_partial_persistence_witness :
    (run_pipeline envOk "a@b.c" "hn").stored
      = (([10, 20, 30, 40] : List Nat).take 3).filterMap (successRow envOk "hn") ∧
    (run_pipeline envOk "a@b.c" "hn").stored.map
        (fun row => (row.title, row.analysis, row.sentiment))
      = (run_pipeline envOk "a@b.c" "hn").report.items.map
        (fun r => (r.original, r.analysis, r.sentiment)) ∧
    successRow envOk "hn" 20 = none :=
  no_partial_persistence envOk "a@b.c" "hn" [10, 20, 30, 40] 20
    "Story 20 failed: timeout" rfl rfl

/-- C8: only the first three upstream ids are processed: the items list has
at most three entries, the detail fetches attempted are exactly those of the
first three ids (hence at most three), and at most three database writes are
attempted. -/
theorem only_first_three (env : Env) (email source : String) (ids : List Nat)
    (h : env.topIds = .ok ids) :
    (run_pipeline env email source).report.items.length ≤ 3 ∧
    ((run_pipeline env email source).calls.filter isStoryFetch)
      = (ids.take 3).map Call.fetchStory ∧
    ((run_pipeline env email source).calls.filter isStoryFetch).length ≤ 3 ∧
    ((run_pipeline env email source).calls.filter isSave).length ≤ 3 := by
  rw [run_pipeline_ok env email source ids h]
  have hlen : (ids.take 3).length ≤ 3 := List.length_take_le 3 ids
  have hfetch : (([Call.fetchTop] ++ callsOf env source (ids.take 3)
      ++ [Call.notify email]).filter isStoryFetch)
      = (ids.take 3).map Call.fetchStory := by
    simp [List.filter_append, callsOf_filter_storyFetch, isStoryFetch]
  refine ⟨?_, hfetch, ?_, ?_⟩
  · exact Nat.le_trans (List.length_filterMap_le _ _) hlen
  · rw [hfetch]
    simp
  · have hsave := callsOf_filter_save_length env source (ids.take 3)
    simp only [List.filter_append]
    simp [isSave]
    omega

/-- Witness for C8 at `envOk` (four upstream ids, only three processed). -/
theorem only_first_three_witness :
    (run_pipeline envOk "a@b.c" "hn").report.items.length ≤ 3 ∧
    ((run_pipeline envOk "a@b.c" "hn").calls.filter isStoryFetch)
      = (([10, 20, 30, 40] : List Nat).take 3).map Call.fetchStory ∧
    ((run_pipeline envOk "a@b.c" "hn").calls.filter isStoryFetch).length ≤ 3 ∧
    ((run_pipeline envOk "a@b.c" "hn").calls.filter isSave).length ≤ 3 :=
  only_first_three envOk "a@b.c" "hn" [10, 20, 30, 40] rfl

/-- The batch-fetch error segment of the response's `errors`. -/
def batchErrsOf (env : Env) : List String :=
  match env.topIds with
  | .error e => ["Failed fetching top stories: " ++ e]
  | .ok _ => []

/-- The ids the per-item loop runs over: none on batch failure, otherwise
the first three fetched ids. -/
def usedIds (env : Env) : List Nat :=
  match env.topIds with
  | .error _ => []
  | .ok ids => ids.take 3

/-- The notification error segment: empty when the notification step never
runs (batch failure) or succeeds. -/
def notifTailOf (env : Env) (email : String) : List String :=
  match env.topIds with
  | .error _ => []
  | .ok _ => notifErrsOf env email

/-- The response's `notificationSent` value across both branches. -/
def sentOf (env : Env) (email : String) : Bool :=
  match env.topIds with
  | .error _ => false
  | .ok _ => notifSentOf env email

/-- C9: every response is built from the accumulated item results, the
notification outcome, the current clock reading, and the accumulated error
strings in the relative order batch-fetch errors, then per-item errors in id
order, then the notification error. -/
theorem report_structure (env : Env) (email source : String) :
    (run_pipeline env email source).report =
      { items := (usedIds env).filterMap (successItem env source)
        notificationSent := sentOf env email
        processedAt := env.now
        errors := batchErrsOf env
          ++ (usedIds env).filterMap (failureMsg env source)
          ++ notifTailOf env email } := by
  cases ht : env.topIds with
  | error e =>
    rw [run_pipeline_err env email source e ht]
    simp [batchErrsOf, usedIds, notifTailOf, sentOf, ht]
  | ok ids =>
    rw [run_pipeline_ok env email source ids ht]
    simp [batchErrsOf, usedIds, notifTailOf, sentOf, ht]

/-- C4: `analyze_text` is a pure function of its input text; the text
`"great growth, no problem"` scores 2 positive / 1 negative and is labeled
`"enthusiastic"`; empty text yields exactly
`("No content available.", "objective")`; and the label follows the
three-way comparison of the two scores, with empty input short-circuiting
to `"objective"`. -/
theorem analyze_text_deterministic (t u : String) (h : t = u) :
    analyze_text t = analyze_text u ∧
    positive_score "great growth, no problem" = 2 ∧
    negative_score "great growth, no problem" = 1 ∧
    (analyze_text "great growth, no problem").2 = "enthusiastic" ∧
    analyze_text "" = ("No content available.", "objective") ∧
    (analyze_text t).2 =
      (if t = "" then "objective"
       else if positive_score t > negative_score t then "enthusiastic"
       else if negative_score t > positive_score t then "critical"
       else "objective") := by
  subst h
  refine ⟨rfl, by decide, by decide, by decide, by decide, ?_⟩
  by_cases ht : t = ""
  · simp [analyze_text, ht]
  · simp [analyze_text, ht]

/-- Witness for C4 at the spec's example text. -/
theorem analyze_text_deterministic_witness :
    analyze_text "great growth, no problem"
      = analyze_text "great growth, no problem" ∧
    positive_score "great growth, no problem" = 2 ∧
    negative_score "great growth, no problem" = 1 ∧
    (analyze_text "great growth, no problem").2 = "enthusiastic" ∧
    analyze_text "" = ("No content available.", "objective") ∧
    (analyze_text "great growth, no problem").2 =
      (if ("great growth, no problem" : String) = "" then "objective"
       else if positive_score "great growth, no problem"
           > negative_score "great growth, no problem" then "enthusiastic"
       else if negative_score "great growth, no problem"
           > positive_score "great growth, no problem" then "critical"
       else "objective") :=
  analyze_text_deterministic "great growth, no problem"
    "great growth, no problem" rfl

/-- The empty loop state (fresh `results`/`errors` and nothing yet
persisted or called). -/
def stEmpty : LoopState :=
  { results := [], errors := [], stored := [], calls := [] }

/-- C5: for a fetched story whose `text` field is absent or empty, the
content classified and handed to storage is the title: the row passed to the
save call has `content` equal to the title and its summary/sentiment are
`analyze_text` of the title; a title that is itself absent defaults to the
empty string. -/
theorem fallback_content (env : Env) (source : String) (sid : Nat)
    (sd : StoryData) (st : LoopState)
    (hf : env.fetchStory sid = .ok sd)
    (ht : sd.text = none ∨ sd.text = some "") :
    (stepItem env source st sid).calls
      = st.calls ++ [Call.fetchStory sid, Call.save (rowOf env source sd)] ∧
    (rowOf env source sd).content = titleOf sd ∧
    (rowOf env source sd).analysis = (analyze_text (titleOf sd)).1 ∧
    (rowOf env source sd).sentiment = (analyze_text (titleOf sd)).2 ∧
    titleOf { title := none, text := sd.text } = "" := by
  have hc : contentOf sd = titleOf sd := by
    cases ht with
    | inl hx => simp [contentOf, hx]
    | inr hx => simp [contentOf, hx]
  refine ⟨?_, ?_, ?_, ?_, rfl⟩
  · unfold stepItem
    rw [hf]
    dsimp only
    cases env.save (rowOf env source sd) <;> rfl
  · simp [rowOf, hc]
  · simp [rowOf, hc]
  · simp [rowOf, hc]

/-- Witness for C5: a story with a title and no `text` field. -/
theorem fallback_content_witness :
    (stepItem envFallback "hn" stEmpty 10).calls
      = stEmpty.calls
        ++ [Call.fetchStory 10, Call.save (rowOf envFallback "hn" storyNoText)] ∧
    (rowOf envFallback "hn" storyNoText).content = titleOf storyNoText ∧
    (rowOf envFallback "hn" storyNoText).analysis
      = (analyze_text (titleOf storyNoText)).1 ∧
    (rowOf envFallback "hn" storyNoText).sentiment
      = (analyze_text (titleOf storyNoText)).2 ∧
    titleOf { title := none, text := storyNoText.text } = "" :=
  fallback_content envFallback "hn" 10 storyNoText stEmpty rfl (Or.inl rfl)

/-- C6 as stated is false at the empty input: `""` is shorter than 200
characters, yet the summary is `"No content available."`, not the input. -/
theorem truncation_counterexample :
    ("" : String).length < 200 ∧
    (analyze_text "").1 = "No content available." ∧
    (analyze_text "").1 ≠ "" := by decide

/-- C6 (amended): the summary never exceeds 200 characters when the input is
longer than 200 characters, and equals the full input text when the input is
non-empty and shorter than 200 characters. -/
theorem truncation_bound (t : String) :
    (200 < t.length → (analyze_text t).1.length ≤ 200) ∧
    (t ≠ "" → t.length < 200 → (analyze_text t).1 = t) := by
  have hlen : t.length = t.data.length := by cases t; rfl
  constructor
  · intro hl
    have hne : t ≠ "" := by
      intro h
      subst h
      simp at hl
    unfold analyze_text
    rw [if_neg hne]
    show (pyTake t 200).length ≤ 200
    have h2 : (pyTake t 200).length = (t.data.take 200).length := rfl
    rw [h2, List.length_take]
    omega
  · intro hne hl
    unfold analyze_text
    rw [if_neg hne]
    show pyTake t 200 = t
    unfold pyTake
    rw [List.take_of_length_le (by omega), strMk_data]

/-- A 201-character input used to witness the truncation bound. -/
def longText : String :=
  String.mk (List.replicate 201 'a')

/-- Witness for the amended C6: one input longer than 200 characters, one
non-empty input shorter than it. -/
theorem truncation_bound_witness :
    (analyze_text longText).1.length ≤ 200 ∧ (analyze_text "hi").1 = "hi" :=
  ⟨(truncation_bound longText).1 (by decide),
   (truncation_bound "hi").2 (by decide) (by decide)⟩

/-- C10: the sentiment scores count which lexicon words occur in the text,
not how often, so each is bounded by the lexicon size 10; a text repeating
one negative word five times beside two distinct positive words is still
labeled `"enthusiastic"`. -/
theorem lexicon_membership_bound (t : String) :
    positive_score t
      = (positive_words.filter (fun w => containsSub (pyLower t) w)).length ∧
    negative_score t
      = (negative_words.filter (fun w => containsSub (pyLower t) w)).length ∧
    positive_score t ≤ 10 ∧
    negative_score t ≤ 10 ∧
    analyze_text "bad bad bad bad bad good great"
      = ("bad bad bad bad bad good great", "enthusiastic") ∧
    positive_score "bad bad bad bad bad good great" = 2 ∧
    negative_score "bad bad bad bad bad good great" = 1 := by
  refine ⟨rfl, rfl, ?_, ?_, by decide, by decide, by decide⟩
  · have := List.length_filter_le
      (fun w => containsSub (pyLower t) w) positive_words
    simpa using this
  · have := List.length_filter_le
      (fun w => containsSub (pyLower t) w) negative_words
    simpa using this
